import Mathlib

/-!
# Verification of the Doodle Jump endless-ascent generator

Shallow embedding of the platform/score logic of `DoodleJumpGame.tsx`
(the "Endless Ascent Generator") and of the earlier revision of the same
component (the file `part_000`, which carries the horizontal-reachability
constrained generator).

Modelling conventions:
* JavaScript numbers are modelled as rationals (`ℚ`); `Math.floor` is `Int.floor`.
* `Math.random()` draws are supplied by an environment (`Env`) as one oracle
  function per call site, each draw lying in `[0, 1)` (`unitRange`).
* `Phaser.Math.Between(min, max)` is `Math.floor(Math.random()*(max-min+1)+min)`
  and `Phaser.Math.FloatBetween(min, max)` is `Math.random()*(max-min)+min`;
  both are embedded literally (`between`, `floatBetween`).
* `Math.sin` is likewise supplied by the environment: its value only affects
  platform x-coordinates of the initial band, which no verified property reads.
* The physics engine's per-frame movement of the player (gravity, collisions,
  bounces) is delegated to the embedded engine; each frame of a run therefore
  takes the engine's resulting player position/velocity as an input
  (`EngineInput`, applied by `physicsStep` before the scene's `update` runs),
  quantifying over every possible engine behaviour.
* Purely visual state (clouds, tints, tweens, texts, particle effects) does not
  interact with platforms, score, or the game-over flag and is not modelled.
* `getData('direction') || 1` / `getData('speed') || 100`: absent data is
  encoded as `0`, and the `||` read is `orDefault`.
-/

namespace DoodleJump

/-- `Phaser.Math.Between(min, max)`: `Math.floor(Math.random() * (max - min + 1) + min)`. -/
def between (r lo hi : ℚ) : ℚ := ((⌊r * (hi - lo + 1) + lo⌋ : ℤ) : ℚ)

/-- `Phaser.Math.FloatBetween(min, max)`: `Math.random() * (max - min) + min`. -/
def floatBetween (r lo hi : ℚ) : ℚ := r * (hi - lo) + lo

/-- JavaScript `v || d` on numbers (absent/zero data falls back to the default). -/
def orDefault (v d : ℚ) : ℚ := if v = 0 then d else v

/-- Platform categories: `'regular'`, `'moving'`, `'breakable'`. -/
inductive PlatformType
  | regular
  | moving
  | breakable
deriving DecidableEq, Repr

/-- A platform sprite: position, category, and the `direction` / `speed` data
entries (0 encodes absent data), plus the display scale. -/
structure Platform where
  x : ℚ
  y : ℚ
  ptype : PlatformType
  dir : ℚ
  speed : ℚ
  scaleX : ℚ
  scaleY : ℚ
deriving DecidableEq, Repr

/-- Per-tick environment: frame delta (ms), keyboard state, the `Math.sin`
library function, and one `[0,1)` oracle per random call site (indexed by the
loop iteration making the call). -/
structure Env where
  delta : ℚ
  leftDown : Bool
  rightDown : Bool
  sin : ℚ → ℚ
  createTypeR : ℕ → ℚ
  createDirR : ℕ → ℚ
  createSpeedR : ℕ → ℚ
  gapR : ℕ → ℚ
  xAreaR : ℕ → ℚ
  xSideR : ℕ → ℚ
  xR : ℕ → ℚ
  typeR : ℕ → ℚ
  dirR : ℕ → ℚ
  speedR : ℕ → ℚ
  scaleR : ℕ → ℚ

/-- An oracle only produces values in `[0, 1)`, as `Math.random()` does. -/
def unitRange (f : ℕ → ℚ) : Prop := ∀ n, 0 ≤ f n ∧ f n < 1

/-- All random oracles of an environment behave like `Math.random()`. -/
def validEnv (e : Env) : Prop :=
  unitRange e.createTypeR ∧ unitRange e.createDirR ∧ unitRange e.createSpeedR ∧
  unitRange e.gapR ∧ unitRange e.xAreaR ∧ unitRange e.xSideR ∧ unitRange e.xR ∧
  unitRange e.typeR ∧ unitRange e.dirR ∧ unitRange e.speedR ∧ unitRange e.scaleR

/-- Game state of `DoodleJumpScene` (fields read or written by the embedded code). -/
structure GameState where
  playerX : ℚ
  playerY : ℚ
  velX : ℚ
  velY : ℚ
  flipX : Bool
  highestY : ℚ
  score : ℤ
  isGameOver : Bool
  platforms : List Platform
deriving DecidableEq, Repr

/-- `Math.floor(Math.abs(highestY) / 10)` — the score computation of the camera branch. -/
def scoreOf (h : ℚ) : ℤ := ⌊|h| / 10⌋

/-- `CAMERA_THRESHOLD` constant of `update`. -/
def CAMERA_THRESHOLD : ℚ := 250

/-- `createPlatform(x, y, type)`: scale 0.5, store the type, and for moving
platforms draw `direction` (`Math.random() > 0.5 ? 1 : -1`) and
`speed` (`Phaser.Math.Between(120, 200)`). -/
def createPlatform (dirDraw speedDraw x y : ℚ) (t : PlatformType) : Platform :=
  if t = .moving then
    { x := x, y := y, ptype := t,
      dir := if dirDraw > 1/2 then 1 else -1,
      speed := between speedDraw 120 200,
      scaleX := 1/2, scaleY := 1/2 }
  else
    { x := x, y := y, ptype := t, dir := 0, speed := 0, scaleX := 1/2, scaleY := 1/2 }

/-- Type selection of the initial-band loop in `create`:
regular for `i ≤ 3`, else moving below 0.25, breakable below 0.4. -/
def initPlatformType (r : ℚ) (i : ℕ) : PlatformType :=
  if i > 3 then
    (if r < 1/4 then .moving else if r < 2/5 then .breakable else .regular)
  else .regular

/-- The base platform created first in `create`: `(400, 550)`, type `'regular'`. -/
def basePlatform : Platform :=
  { x := 400, y := 550, ptype := .regular, dir := 0, speed := 0, scaleX := 1/2, scaleY := 1/2 }

/-- `create()`: reset flags, zero the score and `highestY`, build the base
platform plus 25 initial platforms at `x = 400 + Math.sin(i*0.5)*300`,
`y = 500 - i*80`, and place the player at `(400, 500)` with velocity `-400`. -/
def create (e : Env) : GameState :=
  { playerX := 400, playerY := 500, velX := 0, velY := -400, flipX := false,
    highestY := 0, score := 0, isGameOver := false,
    platforms := basePlatform ::
      (List.range 25).map (fun i =>
        createPlatform (e.createDirR i) (e.createSpeedR i)
          (400 + e.sin ((i : ℚ) * (1/2)) * 300) (500 - (i : ℚ) * 80)
          (initPlatformType (e.createTypeR i) i)) }

/-- Camera branch of `update`: when the player is above `CAMERA_THRESHOLD` and
moving upward, pin the player to the threshold, shift every platform down by
the difference, accumulate `highestY -= diff`, and recompute the score. -/
def cameraStep (s : GameState) : GameState :=
  if s.playerY < CAMERA_THRESHOLD ∧ s.velY < 0 then
    let diff := CAMERA_THRESHOLD - s.playerY
    { s with playerY := CAMERA_THRESHOLD,
             platforms := s.platforms.map (fun p => { p with y := p.y + diff }),
             highestY := s.highestY - diff,
             score := scoreOf (s.highestY - diff) }
  else s

/-- Moving-platform pass of `update` on a single platform:
`x += direction * (speed * delta / 1000)`, then reverse direction at the edges. -/
def movePlatform (delta : ℚ) (p : Platform) : Platform :=
  if p.ptype = .moving then
    let dir := orDefault p.dir 1
    let speed := orDefault p.speed 100
    let x := p.x + dir * (speed * delta / 1000)
    { p with x := x,
             dir := if x < 50 then 1 else if x > 350 then -1 else p.dir }
  else p

/-- The moving-platform pass over the whole group. -/
def moveStep (e : Env) (s : GameState) : GameState :=
  { s with platforms := s.platforms.map (movePlatform e.delta) }

/-- Keyboard branch of `update`: arrow keys / A / D set the horizontal velocity. -/
def inputStep (e : Env) (s : GameState) : GameState :=
  if e.leftDown then { s with velX := -300, flipX := true }
  else if e.rightDown then { s with velX := 300, flipX := false }
  else { s with velX := 0 }

/-- Screen-wrap branch of `update`. -/
def wrapStep (s : GameState) : GameState :=
  if s.playerX < 0 then { s with playerX := 800 }
  else if s.playerX > 800 then { s with playerX := 0 }
  else s

/-- `cleanupPlatforms()`: destroy every platform with `y > player.y + 600`. -/
def cleanupPlatforms (playerY : ℚ) (ps : List Platform) : List Platform :=
  ps.filter (fun p => !(decide (p.y > playerY + 600)))

/-- The cleanup pass as a state transformer. -/
def cleanStep (s : GameState) : GameState :=
  { s with platforms := cleanupPlatforms s.playerY s.platforms }

/-- `const minGap = Math.min(180, 100 + this.score / 10)`. -/
def minGap (s : ℚ) : ℚ := min 180 (100 + s / 10)

/-- `const maxGap = Math.min(300, 150 + this.score / 5)`. -/
def maxGap (s : ℚ) : ℚ := min 300 (150 + s / 5)

/-- Platform-type distribution of `generatePlatforms`, by score tier. -/
def platformType (s : ℤ) (r : ℚ) : PlatformType :=
  if 100 < s then
    (if r < 2/5 then .moving else if r < 7/10 then .breakable else .regular)
  else if 50 < s then
    (if r < 3/10 then .moving else if r < 1/2 then .breakable else .regular)
  else if 20 < s then
    (if r < 1/5 then .moving else if r < 3/10 then .breakable else .regular)
  else .regular

/-- Horizontal placement of `generatePlatforms`: 40% of the time near an edge
(`Between(50, 200)` or `Between(600, 750)`), otherwise `Between(200, 600)`. -/
def pickX (areaR sideR xDraw : ℚ) : ℚ :=
  if areaR < 2/5 then
    (if sideR < 1/2 then between xDraw 50 200 else between xDraw 600 750)
  else between xDraw 200 600

/-- `const PLATFORM_COUNT = Math.max(2, 5 - Math.floor(this.score / 200))`. -/
def platformCount (s : ℤ) : ℕ := (max 2 (5 - ⌊(s : ℚ) / 200⌋)).toNat

/-- `Number.MAX_SAFE_INTEGER`, the fold seed when scanning for the topmost platform. -/
def maxSafeInteger : ℚ := 9007199254740991

/-- The scan for the highest (minimal-`y`) platform in `generatePlatforms`. -/
def highestPlatformY (ps : List Platform) : ℚ :=
  ps.foldl (fun acc p => if p.y < acc then p.y else acc) maxSafeInteger

/-- The batch emitted by `generatePlatforms` below the topmost platform `topY`:
iteration `i` draws a gap in `[minGap, maxGap]`, places the platform at
`y = topY - (i+1)*gap`, picks `x` and the type, and calls `createPlatform`. -/
def genBatch (e : Env) (s : ℤ) (topY : ℚ) : List Platform :=
  (List.range (platformCount s)).map (fun i =>
    let gap := between (e.gapR i) (minGap (s : ℚ)) (maxGap (s : ℚ))
    createPlatform (e.dirR i) (e.speedR i)
      (pickX (e.xAreaR i) (e.xSideR i) (e.xR i))
      (topY - ((i : ℚ) + 1) * gap)
      (platformType s (e.typeR i)))

/-- `generatePlatforms()`: if the topmost platform is within 800 of the player,
append a fresh batch. -/
def generatePlatforms (e : Env) (s : ℤ) (playerY : ℚ) (ps : List Platform) : List Platform :=
  if highestPlatformY ps > playerY - 800 then ps ++ genBatch e s (highestPlatformY ps) else ps

/-- The generation pass as a state transformer. -/
def genStep (e : Env) (s : GameState) : GameState :=
  { s with platforms := generatePlatforms e s.score s.playerY s.platforms }

/-- Fall check of `update`: `gameOver()` when `player.y > CAMERA_THRESHOLD + 700`
(the handler sets the flag and the falling velocity). -/
def fallCheckStep (s : GameState) : GameState :=
  if s.playerY > CAMERA_THRESHOLD + 700 then { s with isGameOver := true, velY := 500 } else s

/-- `update(time, delta)`: early return when the run has ended, else the camera
branch, moving platforms, input, screen wrap, cleanup, generation, fall check. -/
def update (e : Env) (s : GameState) : GameState :=
  if s.isGameOver then s
  else fallCheckStep (genStep e (cleanStep (wrapStep (inputStep e (moveStep e (cameraStep s))))))

/-- The physics engine's per-frame effect on the player marker. Gravity,
velocity integration, collisions, and bounce handlers are delegated to the
embedded engine and out of scope, so the model takes the resulting player
position and velocity of each frame as an input and quantifies over every
possible engine behaviour. -/
structure EngineInput where
  playerX : ℚ
  playerY : ℚ
  velX : ℚ
  velY : ℚ
deriving DecidableEq, Repr

/-- Apply the engine's frame result: only the player's kinematic fields change;
the scene's own fields (platforms, score, `highestY`, `isGameOver`) are owned
by the scene code and untouched by the engine. -/
def physicsStep (pi : EngineInput) (s : GameState) : GameState :=
  { s with playerX := pi.playerX, playerY := pi.playerY, velX := pi.velX, velY := pi.velY }

/-- One frame: the engine moves the player, then the scene's `update` callback runs. -/
def tick (pi : EngineInput) (e : Env) (s : GameState) : GameState :=
  update e (physicsStep pi s)

/-- A run: fold the per-frame `tick` over a list of engine results and
per-tick environments. -/
def run (ts : List (EngineInput × Env)) (s : GameState) : GameState :=
  ts.foldl (fun st t => tick t.1 t.2 st) s

/-! ## The earlier revision (`part_000`): the reachability-constrained generator -/

namespace V0

/-- `const minGap = Math.min(150, 80 + this.score / 20)`. -/
def minGap (s : ℚ) : ℚ := min 150 (80 + s / 20)

/-- `const maxGap = Math.min(250, 120 + this.score / 10)`. -/
def maxGap (s : ℚ) : ℚ := min 250 (120 + s / 10)

/-- `const MAX_HORIZONTAL_REACH = 200`. -/
def MAX_HORIZONTAL_REACH : ℚ := 200

/-- Length-scale ranges of `createPlatform` by type. -/
def scaleRange (t : PlatformType) : ℚ × ℚ :=
  match t with
  | .regular => (4/5, 6/5)
  | .moving => (7/10, 1)
  | .breakable => (3/5, 9/10)

/-- `createPlatform(x, y, type)` of the earlier revision: paper-roll look with a
drawn length scale; no `direction`/`speed` data is stored (the update pass then
falls back to the `|| 1` / `|| 100` defaults). -/
def createPlatform (scaleDraw x y : ℚ) (t : PlatformType) : Platform :=
  { x := x, y := y, ptype := t, dir := 0, speed := 0,
    scaleX := 2/5,
    scaleY := floatBetween scaleDraw (scaleRange t).1 (scaleRange t).2 }

/-- Type selection of the earlier generator: drawn whenever `i > 0 || score < 50`
(otherwise the platform stays regular), with tiered probabilities. -/
def pickType (r : ℚ) (s : ℚ) (i : ℕ) : PlatformType :=
  if 0 < i ∨ s < 50 then
    (if 100 < s then
      (if r < 3/10 then .moving else if r < 1/2 then .breakable else .regular)
     else if 50 < s then
      (if r < 1/5 then .moving else if r < 3/10 then .breakable else .regular)
     else
      (if r < 1/10 then .moving else if r < 3/20 then .breakable else .regular))
  else .regular

/-- The generation loop of the earlier revision, threading `lastX`/`lastY`:
the first platform (`i = 0`) is drawn within `player.x ± 150` (clamped to
`[50, w-50]`), subsequent ones within `lastX ± MAX_HORIZONTAL_REACH`. -/
def genLoop (e : Env) (w s px : ℚ) : ℕ → ℕ → ℚ → ℚ → List Platform
  | 0, _, _, _ => []
  | n + 1, i, lastX, lastY =>
    let gap := between (e.gapR i) (minGap s) (maxGap s)
    let y := lastY - gap
    let x :=
      if i = 0 then
        between (e.xR i) (max 50 (px - 150)) (min (w - 50) (px + 150))
      else
        between (e.xR i) (max 50 (lastX - MAX_HORIZONTAL_REACH))
          (min (w - 50) (lastX + MAX_HORIZONTAL_REACH))
    createPlatform (e.scaleR i) x y (pickType (e.typeR i) s i) ::
      genLoop e w s px n (i + 1) x y

/-- `const PLATFORM_COUNT = Math.max(3, 5 - Math.floor(this.score / 300))`. -/
def platformCount (s : ℚ) : ℕ := (max 3 (5 - ⌊s / 300⌋)).toNat

/-- The batch emitted by the earlier `generatePlatforms`, starting from the
player's x and the topmost platform's y. -/
def genBatch (e : Env) (w s px topY : ℚ) : List Platform :=
  genLoop e w s px (platformCount s) 0 px topY

/-- The earlier `generatePlatforms()`: append a batch when the topmost platform
is within 300 of the player. -/
def generatePlatforms (e : Env) (w s px py : ℚ) (ps : List Platform) : List Platform :=
  if highestPlatformY ps > py - 300 then ps ++ genBatch e w s px (highestPlatformY ps) else ps

end V0

/-! ## Boost items (second revision of `DoodleJumpGame.tsx`) -/

/-- Boost-item bookkeeping of the scene: the live boost sprites (positions),
`lastBoostSpawn`, `boostCollected`, `boostActive`. -/
structure BoostState where
  items : List (ℚ × ℚ)
  lastBoostSpawn : ℤ
  boostCollected : Bool
  boostActive : Bool
deriving DecidableEq, Repr

/-- `Math.floor(this.score / 100)` — the current 100-point milestone. -/
def milestone (score : ℤ) : ℤ := ⌊(score : ℚ) / 100⌋

/-- The spawn guard of `spawnBoostItem`: past the first hundred, milestone not
yet served, and (after the first boost) the previous boost was collected. -/
def spawnCondition (score : ℤ) (st : BoostState) : Prop :=
  0 < milestone score ∧ st.lastBoostSpawn < milestone score ∧
    (st.lastBoostSpawn = 0 ∨ st.boostCollected = true)

instance (score : ℤ) (st : BoostState) : Decidable (spawnCondition score st) := by
  unfold spawnCondition; infer_instance

/-- `spawnBoostItem()`: when the guard holds, record the milestone, reset
`boostCollected`, destroy all existing boost items (`clear(true, true)`) and
create a single new one at `(Between(100, 700), -50)`. -/
def spawnBoostItem (xDraw : ℚ) (score : ℤ) (st : BoostState) : BoostState :=
  if spawnCondition score st then
    { st with lastBoostSpawn := milestone score, boostCollected := false,
              items := [(between xDraw 100 700, -50)] }
  else st

/-- `collectBoostItem(p, item)`: destroy the item, then (unless a boost is
already active) mark the boost active and collected. -/
def collectBoostItem (item : ℚ × ℚ) (st : BoostState) : BoostState :=
  let st1 := { st with items := st.items.erase item }
  if st1.boostActive then st1
  else { st1 with boostActive := true, boostCollected := true }

/-- Camera pass over boost items in `update`: move each down 5x faster than the
platforms and destroy those that fall off the bottom (`y > 900`). -/
def moveBoostItems (diff : ℚ) (items : List (ℚ × ℚ)) : List (ℚ × ℚ) :=
  (items.map (fun it => (it.1, it.2 + diff * 5))).filter (fun it => !(decide (it.2 > 900)))

/-! ## Spec-side definitions -/

/-- Modelled from the spec: `scoreFromAltitude(highestY, originY) -> integer`,
`floor(|highestY - originY| / 10)`; to be compared with the code's `scoreOf`. -/
def scoreFromAltitude (hY oY : ℚ) : ℤ := ⌊|hY - oY| / 10⌋

/-- The lower endpoint of the set of draws `r ∈ [0,1)` on which `platformType`
yields a standard platform, by score tier. -/
def stdThreshold (s : ℤ) : ℚ :=
  if 100 < s then 7/10 else if 50 < s then 1/2 else if 20 < s then 3/10 else 0

/-- The probability (length of the interval of uniform draws) of a standard
platform at score `s`. -/
def regularProb (s : ℤ) : ℚ := 1 - stdThreshold s

/-- The run-long score/altitude invariant: the accumulated `highestY` is
non-positive and the score field is its derived value. -/
def Inv (s : GameState) : Prop := s.highestY ≤ 0 ∧ s.score = scoreOf s.highestY

/-- An all-zero-draws environment, used to instantiate universally quantified
statements at a concrete input. -/
def env0 : Env :=
  { delta := 16, leftDown := false, rightDown := false, sin := fun _ => 0,
    createTypeR := fun _ => 0, createDirR := fun _ => 0, createSpeedR := fun _ => 0,
    gapR := fun _ => 0, xAreaR := fun _ => 0, xSideR := fun _ => 0, xR := fun _ => 0,
    typeR := fun _ => 0, dirR := fun _ => 0, speedR := fun _ => 0, scaleR := fun _ => 0 }

/-! ## Bounds for the `Between` primitive -/

lemma le_between_int (a b : ℤ) (r : ℚ) (hr0 : 0 ≤ r) (hab : a ≤ b) :
    (a : ℚ) ≤ between r a b := by
  have hL : (0 : ℚ) < (b : ℚ) - a + 1 := by
    have : (a : ℚ) ≤ b := by exact_mod_cast hab
    linarith
  have hv : (a : ℚ) ≤ r * ((b : ℚ) - a + 1) + a := by nlinarith
  have : a ≤ ⌊r * ((b : ℚ) - a + 1) + a⌋ := Int.le_floor.mpr (by exact_mod_cast hv)
  unfold between
  exact_mod_cast this

lemma between_le_int (a b : ℤ) (r : ℚ) (hr1 : r < 1) (hab : a ≤ b) :
    between r a b ≤ (b : ℚ) := by
  have hL : (0 : ℚ) < (b : ℚ) - a + 1 := by
    have : (a : ℚ) ≤ b := by exact_mod_cast hab
    linarith
  have hv : r * ((b : ℚ) - a + 1) + a < ((b + 1 : ℤ) : ℚ) := by
    have := mul_lt_of_lt_one_left hL hr1
    push_cast
    linarith
  have : ⌊r * ((b : ℚ) - a + 1) + a⌋ < b + 1 := Int.floor_lt.mpr hv
  have : ⌊r * ((b : ℚ) - a + 1) + a⌋ ≤ b := by omega
  unfold between
  exact_mod_cast this

lemma sub_one_lt_between (lo hi r : ℚ) (hr0 : 0 ≤ r) (h : lo ≤ hi) :
    lo - 1 < between r lo hi := by
  have hL : (0 : ℚ) < hi - lo + 1 := by linarith
  have hv : lo ≤ r * (hi - lo + 1) + lo := by nlinarith
  have := Int.sub_one_lt_floor (r * (hi - lo + 1) + lo)
  unfold between
  linarith

lemma between_lt_add_one (lo hi r : ℚ) (hr1 : r < 1) (h : lo ≤ hi) :
    between r lo hi < hi + 1 := by
  have hL : (0 : ℚ) < hi - lo + 1 := by linarith
  have hv : r * (hi - lo + 1) + lo < hi + 1 := by
    have := mul_lt_of_lt_one_left hL hr1
    linarith
  have := Int.floor_le (r * (hi - lo + 1) + lo)
  unfold between
  linarith

/-! ## Claim C2 — the score function -/

/-- **C2.** The score derived from altitude is `floor(|highestY - originY| / 10)`
with origin 0 in the code: the camera branch's `scoreOf` agrees with the spec's
`scoreFromAltitude` at origin 0, and `scoreFromAltitude(500,500) = 0`,
`scoreFromAltitude(400,500) = 10`. -/
theorem scoreFromAltitude_spec :
    (∀ h : ℚ, scoreOf h = scoreFromAltitude h 0) ∧
    scoreFromAltitude 500 500 = 0 ∧ scoreFromAltitude 400 500 = 10 := by
  refine ⟨fun h => by simp [scoreOf, scoreFromAltitude], ?_, ?_⟩
  · norm_num [scoreFromAltitude]
  · norm_num [scoreFromAltitude]

/-! ## Claim C4 — cleanup -/

/-- **C4.** After `cleanupPlatforms(playerY)` a platform survives exactly when it
was present and its `y` does not exceed `playerY + 600`: every platform with
`y > playerY + 600` is removed, and no platform with `y ≤ playerY + 600` is. -/
theorem cleanup_spec (playerY : ℚ) (ps : List Platform) (p : Platform) :
    p ∈ cleanupPlatforms playerY ps ↔ p ∈ ps ∧ p.y ≤ playerY + 600 := by
  simp [cleanupPlatforms, List.mem_filter, not_lt]

/-! ## Claim C5 — the Ended state is absorbing -/

/-- **C5.** Once `isGameOver` is set, `update` leaves the state untouched — no
generation, cleanup, or score update occurs — and the flag stays set: the
`Running -> Ended` transition is never reversed within a run. -/
theorem ended_absorbing (e : Env) (s : GameState) (h : s.isGameOver = true) :
    update e s = s ∧ (update e s).isGameOver = true := by
  constructor
  · simp [update, h]
  · simp [update, h]

/-- Witness for C5 at a concrete ended state. -/
theorem ended_absorbing_witness :
    (GameState.mk 400 1000 0 500 false (-100) 10 true [basePlatform]).isGameOver = true ∧
    (update env0 (GameState.mk 400 1000 0 500 false (-100) 10 true [basePlatform]) =
      GameState.mk 400 1000 0 500 false (-100) 10 true [basePlatform] ∧
     (update env0 (GameState.mk 400 1000 0 500 false (-100) 10 true [basePlatform])).isGameOver
       = true) :=
  ⟨rfl, ended_absorbing env0 _ rfl⟩

/-! ## Claim C6 — scene re-creation resets the run -/

/-- **C6.** `create` resets the score to 0, the recorded highest altitude to the
start altitude (the accumulator starts at 0), clears the game-over flag, and
populates exactly 1 base platform plus 25 generated platforms (26 total),
whatever the random draws are. -/
theorem create_resets (e : Env) :
    (create e).score = 0 ∧ (create e).highestY = 0 ∧ (create e).isGameOver = false ∧
    (create e).platforms.length = 26 := by
  refine ⟨rfl, rfl, rfl, ?_⟩
  simp [create]

/-! ## Claim C9 — moving platforms -/

/-- **C9.** On each tick the moving-platform pass advances a patrolling platform
by exactly `direction * speed * delta / 1000` (delta in ms), then sets the
direction to `+1` when the new `x < 50` and to `-1` when it exceeds `350`;
platforms of other categories are untouched by this pass. -/
theorem moving_platform_step (delta : ℚ) (p : Platform)
    (hd : p.dir ≠ 0) (hs : p.speed ≠ 0) :
    (p.ptype = .moving →
      (movePlatform delta p).x = p.x + p.dir * (p.speed * delta / 1000) ∧
      (movePlatform delta p).dir =
        (if p.x + p.dir * (p.speed * delta / 1000) < 50 then 1
         else if p.x + p.dir * (p.speed * delta / 1000) > 350 then -1 else p.dir) ∧
      (movePlatform delta p).y = p.y ∧ (movePlatform delta p).ptype = p.ptype) ∧
    (p.ptype ≠ .moving → movePlatform delta p = p) := by
  constructor
  · intro hm
    simp [movePlatform, hm, orDefault, hd, hs]
  · intro hm
    simp [movePlatform, hm]

/-- Witness for C9 at a concrete moving platform. -/
theorem moving_platform_step_witness :
    (Platform.mk 100 0 .moving 1 150 (1/2) (1/2)).dir ≠ 0 ∧
    (Platform.mk 100 0 .moving 1 150 (1/2) (1/2)).speed ≠ 0 ∧
    (((Platform.mk 100 0 .moving 1 150 (1/2) (1/2)).ptype = .moving →
      (movePlatform 16 (Platform.mk 100 0 .moving 1 150 (1/2) (1/2))).x =
        (Platform.mk 100 0 .moving 1 150 (1/2) (1/2)).x +
          (Platform.mk 100 0 .moving 1 150 (1/2) (1/2)).dir *
            ((Platform.mk 100 0 .moving 1 150 (1/2) (1/2)).speed * 16 / 1000) ∧
      (movePlatform 16 (Platform.mk 100 0 .moving 1 150 (1/2) (1/2))).dir =
        (if (Platform.mk 100 0 .moving 1 150 (1/2) (1/2)).x +
              (Platform.mk 100 0 .moving 1 150 (1/2) (1/2)).dir *
                ((Platform.mk 100 0 .moving 1 150 (1/2) (1/2)).speed * 16 / 1000) < 50
         then 1
         else if (Platform.mk 100 0 .moving 1 150 (1/2) (1/2)).x +
              (Platform.mk 100 0 .moving 1 150 (1/2) (1/2)).dir *
                ((Platform.mk 100 0 .moving 1 150 (1/2) (1/2)).speed * 16 / 1000) > 350
         then -1 else (Platform.mk 100 0 .moving 1 150 (1/2) (1/2)).dir) ∧
      (movePlatform 16 (Platform.mk 100 0 .moving 1 150 (1/2) (1/2))).y =
        (Platform.mk 100 0 .moving 1 150 (1/2) (1/2)).y ∧
      (movePlatform 16 (Platform.mk 100 0 .moving 1 150 (1/2) (1/2))).ptype =
        (Platform.mk 100 0 .moving 1 150 (1/2) (1/2)).ptype) ∧
    ((Platform.mk 100 0 .moving 1 150 (1/2) (1/2)).ptype ≠ .moving →
      movePlatform 16 (Platform.mk 100 0 .moving 1 150 (1/2) (1/2)) =
        Platform.mk 100 0 .moving 1 150 (1/2) (1/2))) :=
  ⟨by norm_num, by norm_num,
    moving_platform_step 16 (Platform.mk 100 0 .moving 1 150 (1/2) (1/2))
      (by norm_num) (by norm_num)⟩

/-! ## Claim C10 — boost items -/

/-- **C10.** Boost-item invariants: `spawnBoostItem` keeps at most one live boost
item (it destroys all existing ones before creating exactly one),
`collectBoostItem` only removes items; a spawn happens only when the current
milestone strictly exceeds `lastBoostSpawn` and (after the first boost) only if
the previous boost was collected; `lastBoostSpawn` strictly increases at every
spawn and is never changed otherwise. -/
theorem boost_invariants (xDraw : ℚ) (score : ℤ) (item : ℚ × ℚ) (st : BoostState)
    (h1 : st.items.length ≤ 1) :
    (spawnBoostItem xDraw score st).items.length ≤ 1 ∧
    (collectBoostItem item st).items.length ≤ 1 ∧
    (spawnCondition score st →
      (spawnBoostItem xDraw score st).items.length = 1 ∧
      (spawnBoostItem xDraw score st).lastBoostSpawn = milestone score ∧
      st.lastBoostSpawn < milestone score ∧
      (st.lastBoostSpawn = 0 ∨ st.boostCollected = true) ∧
      (spawnBoostItem xDraw score st).boostCollected = false) ∧
    (¬ spawnCondition score st → spawnBoostItem xDraw score st = st) ∧
    st.lastBoostSpawn ≤ (spawnBoostItem xDraw score st).lastBoostSpawn ∧
    (collectBoostItem item st).lastBoostSpawn = st.lastBoostSpawn ∧
    (moveBoostItems xDraw st.items).length ≤ st.items.length := by
  refine ⟨?_, ?_, ?_, ?_, ?_, ?_, ?_⟩
  · unfold spawnBoostItem
    split_ifs with hc
    · simp
    · exact h1
  · unfold collectBoostItem
    dsimp only
    split_ifs <;> simpa using le_trans (List.length_erase_le _ _) h1
  · intro hc
    refine ⟨?_, ?_, hc.2.1, hc.2.2, ?_⟩ <;> simp [spawnBoostItem, hc]
  · intro hc
    simp [spawnBoostItem, hc]
  · unfold spawnBoostItem
    split_ifs with hc
    · exact le_of_lt hc.2.1
    · exact le_rfl
  · unfold collectBoostItem
    dsimp only
    split_ifs <;> rfl
  · calc (moveBoostItems xDraw st.items).length
        ≤ (st.items.map (fun it => (it.1, it.2 + xDraw * 5))).length :=
          List.length_filter_le _ _
      _ = st.items.length := List.length_map _ _

/-- Witness for C10 at a concrete boost state. -/
theorem boost_invariants_witness :
    (BoostState.mk [((400 : ℚ), (-50 : ℚ))] 1 true false).items.length ≤ 1 ∧
    ((spawnBoostItem 0 250 (BoostState.mk [((400 : ℚ), (-50 : ℚ))] 1 true false)).items.length ≤ 1 ∧
     (collectBoostItem (400, -50)
        (BoostState.mk [((400 : ℚ), (-50 : ℚ))] 1 true false)).items.length ≤ 1 ∧
     (spawnCondition 250 (BoostState.mk [((400 : ℚ), (-50 : ℚ))] 1 true false) →
       (spawnBoostItem 0 250 (BoostState.mk [((400 : ℚ), (-50 : ℚ))] 1 true false)).items.length = 1 ∧
       (spawnBoostItem 0 250
          (BoostState.mk [((400 : ℚ), (-50 : ℚ))] 1 true false)).lastBoostSpawn = milestone 250 ∧
       (BoostState.mk [((400 : ℚ), (-50 : ℚ))] 1 true false).lastBoostSpawn < milestone 250 ∧
       ((BoostState.mk [((400 : ℚ), (-50 : ℚ))] 1 true false).lastBoostSpawn = 0 ∨
        (BoostState.mk [((400 : ℚ), (-50 : ℚ))] 1 true false).boostCollected = true) ∧
       (spawnBoostItem 0 250
          (BoostState.mk [((400 : ℚ), (-50 : ℚ))] 1 true false)).boostCollected = false) ∧
     (¬ spawnCondition 250 (BoostState.mk [((400 : ℚ), (-50 : ℚ))] 1 true false) →
       spawnBoostItem 0 250 (BoostState.mk [((400 : ℚ), (-50 : ℚ))] 1 true false) =
         BoostState.mk [((400 : ℚ), (-50 : ℚ))] 1 true false) ∧
     (BoostState.mk [((400 : ℚ), (-50 : ℚ))] 1 true false).lastBoostSpawn ≤
       (spawnBoostItem 0 250 (BoostState.mk [((400 : ℚ), (-50 : ℚ))] 1 true false)).lastBoostSpawn ∧
     (collectBoostItem (400, -50)
        (BoostState.mk [((400 : ℚ), (-50 : ℚ))] 1 true false)).lastBoostSpawn =
       (BoostState.mk [((400 : ℚ), (-50 : ℚ))] 1 true false).lastBoostSpawn ∧
     (moveBoostItems 0 (BoostState.mk [((400 : ℚ), (-50 : ℚ))] 1 true false).items).length ≤
       (BoostState.mk [((400 : ℚ), (-50 : ℚ))] 1 true false).items.length) :=
  ⟨by simp, boost_invariants 0 250 (400, -50) _ (by simp)⟩

/-! ## Claim C7 — vertical gap bounds -/

/-- **C7.** For every score `s ≥ 0` the vertical-gap draw of `generatePlatforms`
uses the range `[min(180, 100 + s/10), min(300, 150 + s/5)]`: both bounds are
non-decreasing in the score, the lower bound never exceeds the upper bound, and
the drawn gap never exceeds the clamp maximum 300. -/
theorem gap_bounds (s t r : ℚ) (hs : 0 ≤ s) (hst : s ≤ t) (hr0 : 0 ≤ r) (hr1 : r < 1) :
    minGap s ≤ minGap t ∧ maxGap s ≤ maxGap t ∧ minGap s ≤ maxGap s ∧
    between r (minGap s) (maxGap s) ≤ 300 := by
  have hlo : minGap s ≤ maxGap s := by
    unfold minGap maxGap
    refine le_min (le_trans (min_le_left _ _) (by norm_num)) ?_
    exact le_trans (min_le_right _ _) (by linarith)
  refine ⟨min_le_min le_rfl (by linarith), min_le_min le_rfl (by linarith), hlo, ?_⟩
  have h300 : maxGap s ≤ 300 := min_le_left _ _
  have hb : between r (minGap s) (maxGap s) < maxGap s + 1 :=
    between_lt_add_one _ _ _ hr1 hlo
  have hk : (⌊r * (maxGap s - minGap s + 1) + minGap s⌋ : ℚ) < ((301 : ℤ) : ℚ) := by
    unfold between at hb
    push_cast
    linarith
  have hk' : ⌊r * (maxGap s - minGap s + 1) + minGap s⌋ ≤ (300 : ℤ) := by
    have hlt : ⌊r * (maxGap s - minGap s + 1) + minGap s⌋ < (301 : ℤ) := by exact_mod_cast hk
    omega
  unfold between
  exact_mod_cast hk'

/-- Witness for C7 at score 0 and draw 0. -/
theorem gap_bounds_witness :
    (0 : ℚ) ≤ 0 ∧ (0 : ℚ) ≤ 55 ∧ (0 : ℚ) ≤ 0 ∧ (0 : ℚ) < 1 ∧
    (minGap 0 ≤ minGap 55 ∧ maxGap 0 ≤ maxGap 55 ∧ minGap 0 ≤ maxGap 0 ∧
     between 0 (minGap 0) (maxGap 0) ≤ 300) :=
  ⟨le_rfl, by norm_num, le_rfl, by norm_num,
    gap_bounds 0 55 0 le_rfl (by norm_num) le_rfl (by norm_num)⟩

/-! ## Claim C8 — category weights -/

/-- **C8.** The category draw of `generatePlatforms` yields a standard platform
exactly on the draws `r ∈ [stdThreshold s, 1)`, an interval of length
`regularProb s`; that probability is 1 for score ≤ 20 (hence ≥ 85% at score 0),
0.7 for 20 < s ≤ 50, 0.5 for 50 < s ≤ 100 and 0.3 for s > 100, and is
non-increasing in the score, so the weight of the non-standard categories rises
monotonically with the score tier. -/
theorem category_weights (s t : ℤ) (r : ℚ) (hr0 : 0 ≤ r) (hr1 : r < 1) (hst : s ≤ t) :
    (platformType s r = .regular ↔ stdThreshold s ≤ r) ∧
    (s ≤ 20 → regularProb s = 1) ∧
    (20 < s → s ≤ 50 → regularProb s = 7/10) ∧
    (50 < s → s ≤ 100 → regularProb s = 1/2) ∧
    (100 < s → regularProb s = 3/10) ∧
    regularProb t ≤ regularProb s ∧
    (85/100 : ℚ) ≤ regularProb 0 := by
  refine ⟨?_, ?_, ?_, ?_, ?_, ?_, ?_⟩
  · unfold platformType stdThreshold
    split_ifs <;> simp_all <;> linarith
  · intro h
    unfold regularProb stdThreshold
    split_ifs <;> first | (exfalso; omega) | norm_num
  · intro h h'
    unfold regularProb stdThreshold
    split_ifs <;> first | (exfalso; omega) | norm_num
  · intro h h'
    unfold regularProb stdThreshold
    split_ifs <;> first | (exfalso; omega) | norm_num
  · intro h
    unfold regularProb stdThreshold
    split_ifs <;> first | (exfalso; omega) | norm_num
  · unfold regularProb stdThreshold
    split_ifs <;> first | (exfalso; omega) | norm_num
  · norm_num [regularProb, stdThreshold]

/-- Witness for C8 at scores 0 ≤ 30 and draw 0. -/
theorem category_weights_witness :
    (0 : ℚ) ≤ 0 ∧ (0 : ℚ) < 1 ∧ (0 : ℤ) ≤ 30 ∧
    ((platformType 0 0 = .regular ↔ stdThreshold 0 ≤ 0) ∧
     ((0 : ℤ) ≤ 20 → regularProb 0 = 1) ∧
     ((20 : ℤ) < 0 → (0 : ℤ) ≤ 50 → regularProb 0 = 7/10) ∧
     ((50 : ℤ) < 0 → (0 : ℤ) ≤ 100 → regularProb 0 = 1/2) ∧
     ((100 : ℤ) < 0 → regularProb 0 = 3/10) ∧
     regularProb 30 ≤ regularProb 0 ∧
     (85/100 : ℚ) ≤ regularProb 0) :=
  ⟨le_rfl, by norm_num, by norm_num,
    category_weights 0 30 0 le_rfl (by norm_num) (by norm_num)⟩

/-! ## Claim C1 — the score is non-decreasing across a run -/

lemma scoreOf_mono (a b : ℚ) (h : |a| ≤ |b|) : scoreOf a ≤ scoreOf b := by
  unfold scoreOf
  exact Int.floor_le_floor (by linarith)

lemma cameraStep_inv (s : GameState) (h : Inv s) :
    Inv (cameraStep s) ∧ s.score ≤ (cameraStep s).score := by
  obtain ⟨hneg, hsc⟩ := h
  unfold cameraStep
  split_ifs with hc
  · obtain ⟨hy, hv⟩ := hc
    have hdiff : 0 < CAMERA_THRESHOLD - s.playerY := by linarith
    refine ⟨⟨by dsimp; linarith, rfl⟩, ?_⟩
    rw [hsc]
    apply scoreOf_mono
    rw [abs_of_nonpos hneg, abs_of_nonpos (by linarith)]
    linarith
  · exact ⟨⟨hneg, hsc⟩, le_rfl⟩

lemma moveStep_score (e : Env) (s : GameState) : (moveStep e s).score = s.score := rfl

lemma moveStep_highestY (e : Env) (s : GameState) : (moveStep e s).highestY = s.highestY := rfl

lemma cleanStep_score (s : GameState) : (cleanStep s).score = s.score := rfl

lemma cleanStep_highestY (s : GameState) : (cleanStep s).highestY = s.highestY := rfl

lemma genStep_score (e : Env) (s : GameState) : (genStep e s).score = s.score := rfl

lemma genStep_highestY (e : Env) (s : GameState) : (genStep e s).highestY = s.highestY := rfl

lemma inputStep_score (e : Env) (s : GameState) : (inputStep e s).score = s.score := by
  unfold inputStep; split_ifs <;> rfl

lemma inputStep_highestY (e : Env) (s : GameState) : (inputStep e s).highestY = s.highestY := by
  unfold inputStep; split_ifs <;> rfl

lemma wrapStep_score (s : GameState) : (wrapStep s).score = s.score := by
  unfold wrapStep; split_ifs <;> rfl

lemma wrapStep_highestY (s : GameState) : (wrapStep s).highestY = s.highestY := by
  unfold wrapStep; split_ifs <;> rfl

lemma fallCheckStep_score (s : GameState) : (fallCheckStep s).score = s.score := by
  unfold fallCheckStep; split_ifs <;> rfl

lemma fallCheckStep_highestY (s : GameState) : (fallCheckStep s).highestY = s.highestY := by
  unfold fallCheckStep; split_ifs <;> rfl

lemma update_inv (e : Env) (s : GameState) (h : Inv s) :
    Inv (update e s) ∧ s.score ≤ (update e s).score := by
  unfold update
  split_ifs with hg
  · exact ⟨h, le_rfl⟩
  · obtain ⟨hinv, hmono⟩ := cameraStep_inv s h
    have hsc :
        (fallCheckStep (genStep e (cleanStep (wrapStep
          (inputStep e (moveStep e (cameraStep s))))))).score = (cameraStep s).score := by
      rw [fallCheckStep_score, genStep_score, cleanStep_score, wrapStep_score,
        inputStep_score, moveStep_score]
    have hhy :
        (fallCheckStep (genStep e (cleanStep (wrapStep
          (inputStep e (moveStep e (cameraStep s))))))).highestY = (cameraStep s).highestY := by
      rw [fallCheckStep_highestY, genStep_highestY, cleanStep_highestY, wrapStep_highestY,
        inputStep_highestY, moveStep_highestY]
    refine ⟨⟨?_, ?_⟩, ?_⟩
    · rw [hhy]; exact hinv.1
    · rw [hsc, hhy]; exact hinv.2
    · rw [hsc]; exact hmono

lemma physicsStep_score (pi : EngineInput) (s : GameState) :
    (physicsStep pi s).score = s.score := rfl

lemma physicsStep_highestY (pi : EngineInput) (s : GameState) :
    (physicsStep pi s).highestY = s.highestY := rfl

lemma tick_inv (pi : EngineInput) (e : Env) (s : GameState) (h : Inv s) :
    Inv (tick pi e s) ∧ s.score ≤ (tick pi e s).score := by
  have h' : Inv (physicsStep pi s) := by
    rw [Inv, physicsStep_score, physicsStep_highestY]
    exact h
  unfold tick
  have := update_inv e (physicsStep pi s) h'
  rw [physicsStep_score] at this
  exact this

lemma create_inv (e : Env) : Inv (create e) :=
  ⟨le_rfl, by norm_num [create, scoreOf]⟩

lemma run_inv (ts : List (EngineInput × Env)) (s : GameState) (h : Inv s) : Inv (run ts s) := by
  induction ts generalizing s with
  | nil => exact h
  | cons t ts ih => exact ih _ (tick_inv t.1 t.2 s h).1

/-- The modelled dynamics are live: when the engine carries the player above
the camera threshold while moving upward, the very next tick runs the camera
branch and recomputes (here: strictly raises) the score. -/
lemma tick_recomputes_score :
    (run [(⟨400, 100, 0, -10⟩, env0)] (create env0)).score = 15 := by
  show (tick ⟨400, 100, 0, -10⟩ env0 (create env0)).score = 15
  unfold tick update
  rw [if_neg (show ¬ ((physicsStep ⟨400, 100, 0, -10⟩ (create env0)).isGameOver = true) from
    fun h => Bool.false_ne_true h)]
  rw [fallCheckStep_score, genStep_score, cleanStep_score, wrapStep_score,
    inputStep_score, moveStep_score]
  unfold cameraStep
  rw [if_pos (by constructor <;> norm_num [physicsStep, create, CAMERA_THRESHOLD])]
  show scoreOf ((physicsStep ⟨400, 100, 0, -10⟩ (create env0)).highestY -
    (CAMERA_THRESHOLD - (physicsStep ⟨400, 100, 0, -10⟩ (create env0)).playerY)) = 15
  norm_num [physicsStep, create, CAMERA_THRESHOLD, scoreOf]

/-- **C1.** Along any run started by `create` — with the engine's per-frame
player movement supplied adversarially — the score is non-decreasing at every
tick: the score field is only recomputed inside the camera branch, where the
accumulated `|highestY|` can only grow, so `floor(|highestY|/10)` never
decreases. -/
theorem score_nondecreasing (e0 : Env) (ts : List (EngineInput × Env))
    (pi : EngineInput) (e : Env) :
    (run ts (create e0)).score ≤ (tick pi e (run ts (create e0))).score :=
  (tick_inv pi e _ (run_inv ts _ (create_inv e0))).2

/-! ## Claim C3 — horizontal reachability of generated batches -/

lemma createPlatform_x (sd x y : ℚ) (t : PlatformType) : (V0.createPlatform sd x y t).x = x := rfl

lemma platformCount_pos (s : ℚ) : 0 < V0.platformCount s := by
  unfold V0.platformCount
  have h : (3 : ℤ) ≤ max 3 (5 - ⌊s / 300⌋) := le_max_left _ _
  omega

/-- In the earlier generator's loop, once the running `lastX` is an integer in
`[50, w-50]`, every further platform is placed within `MAX_HORIZONTAL_REACH`
of its predecessor. -/
lemma genLoop_chain (e : Env) (m : ℤ) (s px : ℚ) (he : unitRange e.xR) (hm : 100 ≤ m) :
    ∀ (n i : ℕ) (k : ℤ) (y : ℚ), i ≠ 0 → 50 ≤ k → k ≤ m - 50 →
      List.Chain (fun u v => |v - u| ≤ V0.MAX_HORIZONTAL_REACH) ((k : ℤ) : ℚ)
        ((V0.genLoop e ((m : ℤ) : ℚ) s px n i ((k : ℤ) : ℚ) y).map (·.x)) := by
  intro n
  induction n with
  | zero =>
    intro i k y hi hk1 hk2
    rw [V0.genLoop]
    exact List.Chain.nil
  | succ n ih =>
    intro i k y hi hk1 hk2
    rw [V0.genLoop, if_neg hi]
    have hcast : (max 50 (((k : ℤ) : ℚ) - V0.MAX_HORIZONTAL_REACH)) =
        ((max 50 (k - 200) : ℤ) : ℚ) := by
      unfold V0.MAX_HORIZONTAL_REACH
      push_cast
      rfl
    have hcast' : (min (((m : ℤ) : ℚ) - 50) (((k : ℤ) : ℚ) + V0.MAX_HORIZONTAL_REACH)) =
        ((min (m - 50) (k + 200) : ℤ) : ℚ) := by
      unfold V0.MAX_HORIZONTAL_REACH
      push_cast
      rfl
    rw [hcast, hcast']
    set lo : ℤ := max 50 (k - 200) with hlo
    set hi : ℤ := min (m - 50) (k + 200) with hhi
    have hlohi : lo ≤ hi := by omega
    have hxlo : ((lo : ℤ) : ℚ) ≤ between (e.xR i) lo hi :=
      le_between_int lo hi _ (he i).1 hlohi
    have hxhi : between (e.xR i) lo hi ≤ ((hi : ℤ) : ℚ) :=
      between_le_int lo hi _ (he i).2 hlohi
    set k' : ℤ := ⌊e.xR i * (((hi : ℤ) : ℚ) - ((lo : ℤ) : ℚ) + 1) + ((lo : ℤ) : ℚ)⌋ with hk'
    have hxk : between (e.xR i) ((lo : ℤ) : ℚ) ((hi : ℤ) : ℚ) = ((k' : ℤ) : ℚ) := rfl
    have hk'lo : lo ≤ k' := by exact_mod_cast hxk ▸ hxlo
    have hk'hi : k' ≤ hi := by exact_mod_cast hxk ▸ hxhi
    rw [List.map_cons, createPlatform_x, hxk]
    refine List.Chain.cons ?_ (ih (i + 1) k' _ (by omega) (by omega) (by omega))
    rw [abs_le]
    unfold V0.MAX_HORIZONTAL_REACH
    constructor
    · have : k - 200 ≤ k' := by omega
      have : ((k - 200 : ℤ) : ℚ) ≤ ((k' : ℤ) : ℚ) := by exact_mod_cast this
      push_cast at this ⊢
      linarith
    · have : k' ≤ k + 200 := by omega
      have : ((k' : ℤ) : ℚ) ≤ ((k + 200 : ℤ) : ℚ) := by exact_mod_cast this
      push_cast at this ⊢
      linarith

/-- **C3.** In the reachability-constrained generator (the `part_000` revision),
every batch emitted by `generatePlatforms` satisfies: any two consecutively
generated platforms are horizontally within `MAX_HORIZONTAL_REACH = 200` of
each other, and the first platform of the batch lies within a bounded range
(strictly less than 151) of the player's current x position. Holds whenever the
canvas width is an integer `≥ 100` and the player is on screen. -/
theorem generate_reachability (e : Env) (m : ℤ) (w s px topY : ℚ)
    (he : unitRange e.xR) (hw : w = ((m : ℤ) : ℚ)) (hm : 100 ≤ m)
    (hpx0 : 0 ≤ px) (hpxw : px ≤ w) :
    List.Chain' (fun u v => |v - u| ≤ V0.MAX_HORIZONTAL_REACH)
      ((V0.genBatch e w s px topY).map (·.x)) ∧
    ∀ p ∈ (V0.genBatch e w s px topY).head?, |p.x - px| < 151 := by
  subst hw
  have hm' : (100 : ℚ) ≤ ((m : ℤ) : ℚ) := by exact_mod_cast hm
  obtain ⟨n, hn⟩ : ∃ n, V0.platformCount s = n + 1 :=
    ⟨V0.platformCount s - 1, by have := platformCount_pos s; omega⟩
  unfold V0.genBatch
  rw [hn, V0.genLoop, if_pos rfl]
  set mx : ℚ := max 50 (px - 150) with hmx
  set mn : ℚ := min (((m : ℤ) : ℚ) - 50) (px + 150) with hmn
  have hmxmn : mx ≤ mn := by
    refine le_min (max_le (by linarith) (by linarith)) (max_le (by linarith) (by linarith))
  have hx0lo : mx - 1 < between (e.xR 0) mx mn := sub_one_lt_between _ _ _ (he 0).1 hmxmn
  have hx0hi : between (e.xR 0) mx mn < mn + 1 := between_lt_add_one _ _ _ (he 0).2 hmxmn
  set k0 : ℤ := ⌊e.xR 0 * (mn - mx + 1) + mx⌋ with hk0
  have hxk0 : between (e.xR 0) mx mn = ((k0 : ℤ) : ℚ) := rfl
  have hmx_ge : px - 150 ≤ mx := le_max_right _ _
  have hmx_ge' : (50 : ℚ) ≤ mx := le_max_left _ _
  have hmn_le : mn ≤ px + 150 := min_le_right _ _
  have hmn_le' : mn ≤ ((m : ℤ) : ℚ) - 50 := min_le_left _ _
  have hk0lo : 50 ≤ k0 := by
    have h49 : ((49 : ℤ) : ℚ) < ((k0 : ℤ) : ℚ) := by
      rw [← hxk0]
      push_cast
      linarith
    have : (49 : ℤ) < k0 := by exact_mod_cast h49
    omega
  have hk0hi : k0 ≤ m - 50 := by
    have h49 : ((k0 : ℤ) : ℚ) < ((m - 49 : ℤ) : ℚ) := by
      rw [← hxk0]
      push_cast
      linarith
    have : k0 < m - 49 := by exact_mod_cast h49
    omega
  constructor
  · rw [List.map_cons, createPlatform_x, hxk0]
    show List.Chain _ ((k0 : ℤ) : ℚ) _
    exact genLoop_chain e m s px he hm n 1 k0 _ (by omega) hk0lo hk0hi
  · intro p hp
    simp only [List.head?_cons, Option.mem_def, Option.some.injEq] at hp
    rw [← hp, createPlatform_x, hxk0, abs_lt]
    rw [hxk0] at hx0lo hx0hi
    constructor <;> linarith

/-- Witness for C3 at a concrete environment, canvas width 800 and player x 400. -/
theorem generate_reachability_witness :
    unitRange env0.xR ∧ (800 : ℚ) = (((800 : ℤ) : ℤ) : ℚ) ∧ (100 : ℤ) ≤ 800 ∧
    (0 : ℚ) ≤ 400 ∧ (400 : ℚ) ≤ 800 ∧
    (List.Chain' (fun u v => |v - u| ≤ V0.MAX_HORIZONTAL_REACH)
      ((V0.genBatch env0 800 0 400 500).map (·.x)) ∧
     ∀ p ∈ (V0.genBatch env0 800 0 400 500).head?, |p.x - 400| < 151) :=
  ⟨fun n => ⟨le_rfl, by norm_num [env0]⟩, by norm_num, by norm_num, by norm_num, by norm_num,
    generate_reachability env0 800 800 0 400 500
      (fun n => ⟨le_rfl, by norm_num [env0]⟩) (by norm_num) (by norm_num)
      (by norm_num) (by norm_num)⟩

end DoodleJump
